import Mathlib

/-!
Verification development for the weather data acquisition and caching layer
of the grill-bot repository (src/weather.py, class Weather).

Modelling conventions:
* Instants are modelled in integer microseconds, the native resolution of
  Python datetime/timedelta arithmetic.  An aware datetime is a pair of its
  wall-clock reading (microseconds since the epoch as read on the clock of
  its own zone) and its UTC offset; the absolute instant it denotes is
  wall - offset.  The float TTL values computed by the source
  (24.*60.*60./max_requests_per_day for max 250 and 100) are exact in
  microseconds, so integer arithmetic loses nothing.
* A calendar day is its integer day index (days since 1970-01-01); the
  rendering used by strftime is obtained through the standard civil-from-days
  conversion.
* Mongo documents are association lists of string keys and dynamic values;
  update_one with a $set operator merges field-by-field, insert_one appends.
* The DarkSky HTTP endpoint is an oracle: a function from the fetch counter
  to the response (status code and body).  Every call of requests.get
  increments the fetch counter.
-/

set_option autoImplicit false

namespace GrillBotWeather

/-- Microseconds in one second. -/
def usPerSecond : Int := 1000000

/-- Microseconds in one day. -/
def usPerDay : Int := 24 * 60 * 60 * 1000000

/-- An offset-aware Python datetime: the wall-clock reading in its own zone
(microseconds since the epoch as shown on that wall clock) together with the
UTC offset of that zone (microseconds). -/
structure PyDateTime where
  wall : Int
  offset : Int
deriving DecidableEq, Repr

namespace PyDateTime

/-- The absolute instant denoted by an aware datetime (epoch microseconds,
UTC).  Two aware datetimes compare by this value in Python and in MongoDB. -/
def absInstant (t : PyDateTime) : Int := t.wall - t.offset

/-- Python datetime.date() of an aware datetime: the calendar day written on
its own wall clock, as a day index since 1970-01-01. -/
def dateIdx (t : PyDateTime) : Int := t.wall / usPerDay

/-- Python datetime.astimezone: same absolute instant re-expressed with the
given UTC offset. -/
def astimezone (t : PyDateTime) (off : Int) : PyDateTime :=
  { wall := t.wall - t.offset + off, offset := off }

/-- Python timedelta addition: shifts the wall clock, keeps the zone. -/
def addMicroseconds (t : PyDateTime) (d : Int) : PyDateTime :=
  { t with wall := t.wall + d }

end PyDateTime

/-- Python datetime.fromtimestamp(ts, tz): absolute epoch microseconds
rendered on the wall clock of the zone with the given offset. -/
def fromtimestamp (ts : Int) (off : Int) : PyDateTime :=
  { wall := ts + off, offset := off }

/-- The calendar day of an instant as read in the zone with the given offset
(the local calendar day of the absolute instant). -/
def localDateIdx (off : Int) (t : PyDateTime) : Int :=
  (t.astimezone off).dateIdx

/-- Weather.date_to_datetime: midnight at the start of the given calendar day
on the local wall clock (datetime(y, m, d) is naive local wall-clock time;
astimezone(get_localzone()) stamps it with the local offset, keeping the wall
reading). -/
def date_to_datetime (localOff : Int) (day : Int) : PyDateTime :=
  { wall := day * usPerDay, offset := localOff }

/-- Civil calendar date (year, month, day) from a day index since 1970-01-01,
by the standard proleptic-Gregorian conversion. -/
def civilFromDays (z : Int) : Int × Nat × Nat :=
  let zz := z + 719468
  let era := zz / 146097
  let doe := (zz - era * 146097).toNat
  let yoe := (doe - doe / 1460 + doe / 36524 - doe / 146096) / 365
  let y : Int := (yoe : Int) + era * 400
  let doy := doe - (365 * yoe + yoe / 4 - yoe / 100)
  let mp := (5 * doy + 2) / 153
  let d := doy - (153 * mp + 2) / 5 + 1
  let m := if mp < 10 then mp + 3 else mp - 9
  (if m ≤ 2 then y + 1 else y, m, d)

/-- Zero-padded two-digit decimal rendering (strftime %d / %m). -/
def pad2 (n : Nat) : String :=
  if n < 10 then "0" ++ Nat.repr n else Nat.repr n

/-- Python strftime with format %d-%m-%Y applied to (the wall-clock date of) a
datetime, as used by the source for forecast and time-machine keys:
zero-padded day, dash, zero-padded month, dash, year. -/
def strftimeDMY (day : Int) : String :=
  let c := civilFromDays day
  pad2 c.2.2 ++ "-" ++ pad2 c.2.1 ++ "-" ++ Int.repr c.1

/-- Rendering of a calendar day in the ISO-8601 date format YYYY-MM-DD.  This
definition follows the specification's words (the spec says cache keys are
"the ISO calendar date"); it is the comparator for claim C8, not code from
the source. -/
def isoDateString (day : Int) : String :=
  let c := civilFromDays day
  Int.repr c.1 ++ "-" ++ pad2 c.2.1 ++ "-" ++ pad2 c.2.2

/-- Dynamic values stored in a parsed JSON document / Mongo document. -/
inductive Value where
  | num (q : Int)
  | str (s : String)
  | dt (t : PyDateTime)
  | obj (fields : List (String × Value))
  | arr (elems : List Value)
deriving Repr

/-- A parsed JSON document / Mongo document: ordered field list. -/
abbrev Document : Type := List (String × Value)

/-- Field lookup in an ordered field list (first matching key); used both for
documents and for the column table of Weather.hourly. -/
def getField {A : Type} (r : List (String × A)) (k : String) : Option A :=
  match r with
  | [] => none
  | (k', v) :: rest => if k' = k then some v else getField rest k

/-- Python dict item assignment: replaces the value of an existing key in
place, or appends the key at the end. -/
def setField {A : Type} (r : List (String × A)) (k : String) (v : A) :
    List (String × A) :=
  match r with
  | [] => [(k, v)]
  | (k', v') :: rest =>
    if k' = k then (k, v) :: rest else (k', v') :: setField rest k v

/-- MongoDB update with a $set operator: every field of the update document is
written onto the stored document; stored fields absent from the update
document survive. -/
def mergeSet (old new_ : Document) : Document :=
  new_.foldl (fun acc kv => setField acc kv.1 kv.2) old

/-- Python-level failures surfaced by the weather component. -/
inductive PyError where
  | valueError (msg : String)
  | runtimeError (status : Nat)
  | keyError (k : String)
  | attributeError (attr : String)
  | typeError
deriving DecidableEq, Repr

/-- The caller-supplied time argument of Weather.__get_data / Weather.hourly:
absent, a naive datetime (wall-clock microseconds, no zone), an offset-aware
datetime, a plain calendar date (day index), or a value of any other type. -/
inductive PyInput where
  | noneArg
  | naive (wall : Int)
  | aware (t : PyDateTime)
  | dateObj (day : Int)
  | otherType
deriving Repr

/-- The three Mongo collections used by the Weather class: db_current holds at
most one document (update_one with empty filter), db_forecasts and
db_time_machine hold documents in insertion order. -/
structure Store where
  current : Option Document
  forecasts : List Document
  time_machine : List Document

/-- Mutable world of a Weather instance: the store plus the number of
requests.get calls made so far. -/
structure World where
  store : Store
  fetchCount : Nat

/-- One HTTP response of the DarkSky endpoint: status code and parsed body. -/
structure ApiResponse where
  status : Nat
  body : Document

/-- Weather.__darksky response handling: a non-200 status raises RuntimeError
carrying the status code, a 200 response yields the parsed JSON body. -/
def darksky (resp : ApiResponse) : Except PyError Document :=
  if resp.status ≠ 200 then .error (.runtimeError resp.status)
  else .ok resp.body

/-- The input validation and conversion at the top of Weather.__get_data:
a naive datetime raises ValueError; an aware datetime passes unchanged; a
plain date becomes local midnight of that day via date_to_datetime; None
passes; any other type raises ValueError. -/
def normalizeTime (localOff : Int) (t : PyInput) :
    Except PyError (Option PyDateTime) :=
  match t with
  | .naive _ =>
    .error (.valueError "Day is a naive datetime object. Please assign a timezone before passing in.")
  | .aware dt => .ok (some dt)
  | .dateObj d => .ok (some (date_to_datetime localOff d))
  | .noneArg => .ok none
  | .otherType => .error (.valueError "Day is of wrong type. Please convert to an offset aware datetime object first.")

/-- The three data regimes of Weather.__get_data. -/
inductive Regime where
  | CURRENT
  | FORECAST
  | HISTORICAL
deriving DecidableEq, Repr

/-- The branch structure of Weather.__get_data: time None selects the current
branch; time.date() >= self.now().date() selects the forecast branch;
otherwise the time-machine branch. -/
def classify (now : PyDateTime) (t : Option PyDateTime) : Regime :=
  match t with
  | none => .CURRENT
  | some dt => if dt.dateIdx ≥ now.dateIdx then .FORECAST else .HISTORICAL

/-- Microseconds of timedelta(seconds = 24.*60.*60./max_requests_per_day);
exact for the divisors 250 and 100 used by the source. -/
def ttlMicroseconds (maxRequestsPerDay : Int) : Int :=
  24 * 60 * 60 * usPerSecond / maxRequestsPerDay

/-- Requests-per-day budget of the current-conditions branch. -/
def currentMaxRequestsPerDay : Int := 250

/-- Requests-per-day budget of the forecast branch. -/
def forecastMaxRequestsPerDay : Int := 100

/-- Mongo filter fragment time greater-than threshold: true when the document
has a datetime field time after the threshold instant (aware datetimes compare
by absolute instant). -/
def timeFieldAfter (threshold : PyDateTime) (r : Document) : Bool :=
  match getField r "time" with
  | some (.dt t) => decide (threshold.absInstant < t.absInstant)
  | _ => false

/-- Mongo filter fragment date equals key: true when the document has a string
field date equal to the key. -/
def dateFieldEq (key : String) (r : Document) : Bool :=
  match getField r "date" with
  | some (.str s) => decide (s = key)
  | _ => false

/-- find_one on db_current with filter time greater-than threshold. -/
def currentFindFresh (st : Store) (threshold : PyDateTime) : Option Document :=
  match st.current with
  | some r => if timeFieldAfter threshold r then some r else none
  | none => none

/-- Lines 118-120 of the current branch: read the UNIX timestamp from
resp['currently']['time'], resolve pytz.timezone(resp['timezone']), and store
an aware datetime under the key time.  Missing keys raise KeyError,
ill-typed values raise TypeError. -/
def annotateCurrent (tzOf : String → Int) (body : Document) :
    Except PyError Document :=
  match getField body "currently" with
  | some (.obj cur) =>
    match getField cur "time" with
    | some (.num ts) =>
      match getField body "timezone" with
      | some (.str zname) =>
        .ok (setField body "time" (.dt (fromtimestamp (ts * usPerSecond) (tzOf zname))))
      | some _ => .error .typeError
      | none => .error (.keyError "timezone")
    | some _ => .error .typeError
    | none => .error (.keyError "time")
  | some _ => .error .typeError
  | none => .error (.keyError "currently")

/-- Lines 149-151 / 172-174: stamp a fetched body with the request time under
the key time and the day key under the key date, before writing it. -/
def stampDoc (now : PyDateTime) (key : String) (body : Document) : Document :=
  setField (setField body "time" (.dt now)) "date" (.str key)

/-- Mongo update_one({'date': key}, {'$set': stored}, upsert=True) over a
collection in insertion order: merge the update document onto the first match,
or append it when no document matches. -/
def upsertByDate (key : String) (stored : Document) :
    List Document → List Document
  | [] => [stored]
  | r :: rest =>
    if dateFieldEq key r then mergeSet r stored :: rest
    else r :: upsertByDate key stored rest

/-- The current-conditions branch of Weather.__get_data (time is None):
look up a document fresher than now minus 86400/250 seconds; on a hit return
it, otherwise fetch, annotate the response with its own reported time, and
update_one({}, {'$set': ...}, upsert=True) the single current slot. -/
def currentPath (api : Nat → ApiResponse) (tzOf : String → Int)
    (now : PyDateTime) (w : World) : Except PyError Document × World :=
  let threshold := now.addMicroseconds (-(ttlMicroseconds currentMaxRequestsPerDay))
  match currentFindFresh w.store threshold with
  | some r => (.ok r, w)
  | none =>
    let w1 : World := { w with fetchCount := w.fetchCount + 1 }
    match darksky (api w.fetchCount) with
    | .error e => (.error e, w1)
    | .ok body =>
      match annotateCurrent tzOf body with
      | .error e => (.error e, w1)
      | .ok stored =>
        let newCur :=
          match w.store.current with
          | some old => mergeSet old stored
          | none => stored
        (.ok stored, { w1 with store := { w1.store with current := some newCur } })

/-- The forecast branch of Weather.__get_data (time.date() >= today): look up
a document for the day key fresher than now minus 86400/100 seconds; on a hit
return it, otherwise fetch, stamp the response with the request time and the
day key, and upsert it by day key. -/
def forecastPath (api : Nat → ApiResponse) (now : PyDateTime)
    (dt : PyDateTime) (w : World) : Except PyError Document × World :=
  let key := strftimeDMY dt.dateIdx
  let threshold := now.addMicroseconds (-(ttlMicroseconds forecastMaxRequestsPerDay))
  match w.store.forecasts.find? (fun r => dateFieldEq key r && timeFieldAfter threshold r) with
  | some r => (.ok r, w)
  | none =>
    let w1 : World := { w with fetchCount := w.fetchCount + 1 }
    match darksky (api w.fetchCount) with
    | .error e => (.error e, w1)
    | .ok body =>
      let stored := stampDoc now key body
      (.ok stored,
       { w1 with store := { w1.store with forecasts := upsertByDate key stored w.store.forecasts } })

/-- The time-machine branch of Weather.__get_data (time.date() < today): look
up a document for the day key with no freshness condition; on a hit return it,
otherwise fetch, stamp the response with the request time and the day key, and
insert_one it. -/
def historicalPath (api : Nat → ApiResponse) (now : PyDateTime)
    (dt : PyDateTime) (w : World) : Except PyError Document × World :=
  let key := strftimeDMY dt.dateIdx
  match w.store.time_machine.find? (fun r => dateFieldEq key r) with
  | some r => (.ok r, w)
  | none =>
    let w1 : World := { w with fetchCount := w.fetchCount + 1 }
    match darksky (api w.fetchCount) with
    | .error e => (.error e, w1)
    | .ok body =>
      let stored := stampDoc now key body
      (.ok stored,
       { w1 with store := { w1.store with time_machine := w.store.time_machine ++ [stored] } })

/-- Weather.__get_data: validate and normalize the time argument, then
dispatch on its relation to today.  The api argument is the DarkSky endpoint
oracle (indexed by the fetch counter), tzOf resolves pytz timezone names to
UTC offsets, localOff is the offset of get_localzone(), now is the value
returned by self.now() during this call. -/
def getData (api : Nat → ApiResponse) (tzOf : String → Int) (localOff : Int)
    (now : PyDateTime) (w : World) (time : PyInput) :
    Except PyError Document × World :=
  match normalizeTime localOff time with
  | .error e => (.error e, w)
  | .ok none => currentPath api tzOf now w
  | .ok (some dt) =>
    if classify now (some dt) = .FORECAST then forecastPath api now dt w
    else historicalPath api now dt w

/-- Column-oriented hourly table: field name to one entry per hour, None where
the hour lacks the field. -/
abbrev Table : Type := List (String × List (Option Value))

/-- Lexicographic order on strings by code points, as a boolean. -/
def strLeB (a b : String) : Bool :=
  go a.data b.data
where
  go : List Char → List Char → Bool
    | [], _ => true
    | _ :: _, [] => false
    | c :: cs, d :: ds =>
      if c.toNat < d.toNat then true
      else if d.toNat < c.toNat then false
      else go cs ds

/-- Insertion of a string into a sorted list, ordered by code points. -/
def insertSorted (a : String) : List String → List String
  | [] => [a]
  | b :: rest => if strLeB a b then a :: b :: rest else b :: insertSorted a rest

/-- Insertion sort by code-point order, modelling the sort performed by
np.unique. -/
def sortStrings : List String → List String
  | [] => []
  | a :: rest => insertSorted a (sortStrings rest)

/-- Lines 261-262 of Weather.hourly: np.unique over all keys of all hourly
entries, that is the sorted duplicate-free union of the field names. -/
def keyUnion (hours : List Document) : List String :=
  sortStrings ((hours.map (fun h => h.map Prod.fst)).flatten).dedup

/-- Lines 265-271 of Weather.hourly: one column per key of the union, one
entry per hour, None where the hour lacks the key (try/except KeyError). -/
def buildColumns (hours : List Document) : Table :=
  (keyUnion hours).map (fun k => (k, hours.map (fun h => getField h k)))

/-- Line 274 of Weather.hourly: datetime.fromtimestamp(value, tz) applied to
every entry of the time column.  A None entry or a non-numeric entry raises
TypeError. -/
def convertTimes (tzoff : Int) : List (Option Value) → Except PyError (List (Option Value))
  | [] => .ok []
  | some (.num ts) :: rest =>
    match convertTimes tzoff rest with
    | .ok l => .ok (some (.dt (fromtimestamp (ts * usPerSecond) tzoff)) :: l)
    | .error e => .error e
  | _ :: _ => .error .typeError

/-- The aggregation step of Weather.hourly (lines 260-274): build the columns
and replace the time column by its converted entries; data['time'] raises
KeyError when no hourly entry carries a time field. -/
def aggregateHours (tzoff : Int) (hours : List Document) :
    Except PyError Table :=
  let cols := buildColumns hours
  match getField cols "time" with
  | none => .error (.keyError "time")
  | some timeCol =>
    match convertTimes tzoff timeCol with
    | .error e => .error e
    | .ok newCol => .ok (setField cols "time" newCol)

/-- Conversion of the elements of resp['hourly']['data'] to documents; a
non-dict element would raise AttributeError at hour.keys(). -/
def asDocs : List Value → Option (List Document)
  | [] => some []
  | .obj f :: rest => (asDocs rest).map (fun l => f :: l)
  | _ :: _ => none

/-- Body of Weather.hourly after the day argument is resolved: fetch the data
for the day through __get_data, extract resp['hourly']['data'], resolve
pytz.timezone(resp['timezone']), and aggregate the hourly entries into a
column table.  (In the source the column build precedes the timezone lookup;
the column build is total, so folding it into aggregateHours after the lookup
is observationally identical.) -/
def hourlyCore (api : Nat → ApiResponse) (tzOf : String → Int) (localOff : Int)
    (now : PyDateTime) (w : World) (day : Int) : Except PyError Table × World :=
  match getData api tzOf localOff now w (.dateObj day) with
  | (.error e, w') => (.error e, w')
  | (.ok resp, w') =>
    match getField resp "hourly" with
    | some (.obj h) =>
      match getField h "data" with
      | some (.arr items) =>
        match asDocs items with
        | some hours =>
          match getField resp "timezone" with
          | some (.str z) =>
            match aggregateHours (tzOf z) hours with
            | .error e => (.error e, w')
            | .ok tbl => (.ok tbl, w')
          | some _ => (.error .typeError, w')
          | none => (.error (.keyError "timezone"), w')
        | none => (.error (.attributeError "keys"), w')
      | some _ => (.error .typeError, w')
      | none => (.error (.keyError "data"), w')
    | some _ => (.error .typeError, w')
    | none => (.error (.keyError "hourly"), w')

/-- Weather.hourly: when the day argument is absent, substitute today via
self.now().date(); otherwise call day.date(), which succeeds for datetime
arguments (aware or naive, yielding their wall-clock date) and raises
AttributeError for plain date objects and any other type. -/
def hourly (api : Nat → ApiResponse) (tzOf : String → Int) (localOff : Int)
    (now : PyDateTime) (w : World) (day : PyInput) : Except PyError Table × World :=
  match day with
  | .noneArg => hourlyCore api tzOf localOff now w now.dateIdx
  | .naive wall => hourlyCore api tzOf localOff now w (wall / usPerDay)
  | .aware t => hourlyCore api tzOf localOff now w t.dateIdx
  | .dateObj _ => (.error (.attributeError "date"), w)
  | .otherType => (.error (.attributeError "date"), w)

/-- Number of documents of a collection carrying the given day key. -/
def countDate (l : List Document) (k : String) : Nat :=
  (l.filter (fun r => dateFieldEq k r)).length

/-- The per-regime TTL in seconds, as a rational, for comparison with the
specification's stated values. -/
def ttlSecondsQ (maxRequestsPerDay : Int) : ℚ :=
  (ttlMicroseconds maxRequestsPerDay : ℚ) / (usPerSecond : ℚ)

/-- Boolean test that a document has a numeric value under a key. -/
def isNumField (r : Document) (k : String) : Bool :=
  match getField r k with
  | some (.num _) => true
  | _ => false

section Fixtures

/-- UTC offset of the local zone used in the concrete scenarios: UTC-05:00. -/
def estOffset : Int := -5 * 3600 * usPerSecond

/-- 2024-03-10T08:00-05:00 (day index of 2024-03-10 is 19792). -/
def nowMar10 : PyDateTime := ⟨19792 * usPerDay + 8 * 3600 * usPerSecond, estOffset⟩

/-- 2024-03-11T08:00-05:00. -/
def nowMar11 : PyDateTime := ⟨19793 * usPerDay + 8 * 3600 * usPerSecond, estOffset⟩

/-- 2024-03-10T23:00-05:00. -/
def instMar10at23 : PyDateTime := ⟨19792 * usPerDay + 23 * 3600 * usPerSecond, estOffset⟩

/-- 2024-03-09T23:59-05:00. -/
def instMar9at2359 : PyDateTime := ⟨19791 * usPerDay + (23 * 3600 + 59 * 60) * usPerSecond, estOffset⟩

/-- 2024-03-10T13:00+09:00, the same absolute instant as 2024-03-09T23:00-05:00. -/
def instTokyoMar10 : PyDateTime := ⟨19792 * usPerDay + 13 * 3600 * usPerSecond, 9 * 3600 * usPerSecond⟩

/-- Timezone-name oracle mapping every name to UTC, for concrete runs. -/
def utcTzOf : String → Int := fun _ => 0

/-- An empty store and a zero fetch counter. -/
def emptyWorld : World := ⟨⟨none, [], []⟩, 0⟩

/-- A well-formed current-conditions body whose reported time is the absolute
instant of nowMar10 (1710075600 UNIX seconds). -/
def bodyAtNowMar10 : Document :=
  [("currently", .obj [("time", .num 1710075600)]), ("timezone", .str "UTC")]

/-- A DarkSky endpoint that always answers 200 with bodyAtNowMar10. -/
def apiAtNowMar10 : Nat → ApiResponse := fun _ => ⟨200, bodyAtNowMar10⟩

/-- A DarkSky endpoint that always answers 429 with an empty body. -/
def api429 : Nat → ApiResponse := fun _ => ⟨429, []⟩

/-- A previously stored current document carrying a field alerts that later
responses do not carry, with a long-expired fetch time. -/
def staleCurrentDoc : Document := [("alerts", .str "storm"), ("time", .dt ⟨0, 0⟩)]

/-- World whose current slot holds staleCurrentDoc. -/
def staleCurrentWorld : World := ⟨⟨some staleCurrentDoc, [], []⟩, 0⟩

/-- A response body carrying an hourly data array (one hour with time and
temperature) and a timezone name. -/
def hourlyBody : Document :=
  [("timezone", .str "UTC"),
   ("hourly", .obj [("data", .arr [.obj [("time", .num 1710028800), ("temperature", .num 70)]])])]

/-- A DarkSky endpoint that always answers 200 with hourlyBody. -/
def apiHourly : Nat → ApiResponse := fun _ => ⟨200, hourlyBody⟩

/-- Wall-clock microseconds of the naive timestamp 2024-03-09T23:59 (no zone). -/
def naiveMar9Wall : Int := 19791 * usPerDay + (23 * 3600 + 59 * 60) * usPerSecond

/-- Hourly record with fields time and temperature only. -/
def hourRec1 : Document := [("time", .num 1000), ("temperature", .num 66)]

/-- Hourly record with fields time, temperature and humidity. -/
def hourRec2 : Document := [("time", .num 4600), ("temperature", .num 67), ("humidity", .num 83)]

end Fixtures

/-! ## Helper lemmas -/

theorem getField_setField_self {A : Type} (r : List (String × A)) (k : String) (v : A) :
    getField (setField r k v) k = some v := by
  induction r with
  | nil => simp [getField, setField]
  | cons p rest ih =>
    obtain ⟨k', v'⟩ := p
    by_cases h : k' = k
    · simp [setField, h, getField]
    · simp [setField, h, getField, ih]

theorem getField_setField_ne {A : Type} (r : List (String × A)) (k k' : String) (v : A)
    (h : k' ≠ k) : getField (setField r k v) k' = getField r k' := by
  induction r with
  | nil => simp [getField, setField, Ne.symm h]
  | cons p rest ih =>
    obtain ⟨k0, v0⟩ := p
    by_cases h0 : k0 = k
    · subst h0
      simp [setField, getField, Ne.symm h]
    · simp only [setField, if_neg h0, getField]
      rw [ih]

theorem getField_eq_none_of_not_mem {A : Type} (r : List (String × A)) (k : String)
    (h : k ∉ r.map Prod.fst) : getField r k = none := by
  induction r with
  | nil => rfl
  | cons p rest ih =>
    obtain ⟨k0, v0⟩ := p
    simp only [List.map_cons, List.mem_cons] at h
    push_neg at h
    simp [getField, Ne.symm h.1, ih h.2]

theorem mergeSet_nil (old : Document) : mergeSet old [] = old := rfl

theorem mergeSet_cons (old : Document) (k : String) (v : Value) (rest : Document) :
    mergeSet old ((k, v) :: rest) = mergeSet (setField old k v) rest := rfl

theorem getField_mergeSet_of_not_mem (new_ : Document) :
    ∀ (old : Document) (k : String), k ∉ new_.map Prod.fst →
      getField (mergeSet old new_) k = getField old k := by
  induction new_ with
  | nil => intro old k _; rfl
  | cons p rest ih =>
    obtain ⟨k0, v0⟩ := p
    intro old k h
    simp only [List.map_cons, List.mem_cons] at h
    push_neg at h
    rw [mergeSet_cons, ih _ _ h.2, getField_setField_ne _ _ _ _ h.1]

theorem getField_mergeSet_of_mem (new_ : Document) :
    ∀ (old : Document) (k : String) (v : Value),
      (new_.map Prod.fst).Nodup → getField new_ k = some v →
      getField (mergeSet old new_) k = some v := by
  induction new_ with
  | nil => intro old k v _ h; simp [getField] at h
  | cons p rest ih =>
    obtain ⟨k0, v0⟩ := p
    intro old k v hnd h
    simp only [List.map_cons, List.nodup_cons] at hnd
    by_cases h0 : k0 = k
    · subst h0
      simp only [getField, if_pos rfl] at h
      rw [mergeSet_cons, getField_mergeSet_of_not_mem rest _ _ hnd.1,
        getField_setField_self]
      exact h
    · simp only [getField, if_neg h0] at h
      rw [mergeSet_cons]
      exact ih (setField old k0 v0) k v hnd.2 h

theorem dateIdx_date_to_datetime (loc d : Int) :
    (date_to_datetime loc d).dateIdx = d := by
  show d * usPerDay / usPerDay = d
  exact Int.mul_ediv_cancel d (by decide)

theorem getData_noneArg (api : Nat → ApiResponse) (tzOf : String → Int)
    (loc : Int) (now : PyDateTime) (w : World) :
    getData api tzOf loc now w .noneArg = currentPath api tzOf now w := rfl

theorem getData_aware_forecast (api : Nat → ApiResponse) (tzOf : String → Int)
    (loc : Int) (now t : PyDateTime) (w : World) (h : now.dateIdx ≤ t.dateIdx) :
    getData api tzOf loc now w (.aware t) = forecastPath api now t w := by
  simp [getData, normalizeTime, classify, ge_iff_le, h]

theorem getData_aware_historical (api : Nat → ApiResponse) (tzOf : String → Int)
    (loc : Int) (now t : PyDateTime) (w : World) (h : t.dateIdx < now.dateIdx) :
    getData api tzOf loc now w (.aware t) = historicalPath api now t w := by
  simp [getData, normalizeTime, classify, ge_iff_le, not_le.mpr h]

theorem getData_dateObj (api : Nat → ApiResponse) (tzOf : String → Int)
    (loc : Int) (now : PyDateTime) (w : World) (d : Int) :
    getData api tzOf loc now w (.dateObj d) =
      (if now.dateIdx ≤ d then forecastPath api now (date_to_datetime loc d) w
       else historicalPath api now (date_to_datetime loc d) w) := by
  by_cases h : now.dateIdx ≤ d
  · simp [getData, normalizeTime, classify, ge_iff_le, dateIdx_date_to_datetime, h]
  · simp [getData, normalizeTime, classify, ge_iff_le, dateIdx_date_to_datetime, h]

theorem dateFieldEq_stampDoc (now : PyDateTime) (key : String) (body : Document) :
    dateFieldEq key (stampDoc now key body) = true := by
  unfold dateFieldEq stampDoc
  rw [getField_setField_self]
  simp

theorem find?_append_of_none {α : Type} (p : α → Bool) (l1 l2 : List α)
    (h : l1.find? p = none) : (l1 ++ l2).find? p = l2.find? p := by
  induction l1 with
  | nil => rfl
  | cons a rest ih =>
    cases hpa : p a with
    | true => rw [List.find?_cons_of_pos _ hpa] at h; exact absurd h (by simp)
    | false =>
      rw [List.find?_cons_of_neg _ (by simp [hpa])] at h
      rw [List.cons_append, List.find?_cons_of_neg _ (by simp [hpa])]
      exact ih h

theorem find?_eq_none_of_countDate_zero (l : List Document) (k : String)
    (h : countDate l k = 0) : l.find? (fun r => dateFieldEq k r) = none := by
  unfold countDate at h
  rw [List.length_eq_zero] at h
  rw [List.find?_eq_none]
  intro x hx hpx
  have hmem : x ∈ l.filter (fun r => dateFieldEq k r) := List.mem_filter.mpr ⟨hx, hpx⟩
  rw [h] at hmem
  exact absurd hmem (List.not_mem_nil x)

theorem find?_some_of_countDate_pos (l : List Document) (k : String)
    (h : 0 < countDate l k) :
    ∃ doc, l.find? (fun r => dateFieldEq k r) = some doc := by
  rcases hfind : l.find? (fun r => dateFieldEq k r) with _ | doc
  · exfalso
    rw [List.find?_eq_none] at hfind
    have hz : countDate l k = 0 := by
      unfold countDate
      rw [List.length_eq_zero, List.filter_eq_nil_iff]
      exact fun a ha => hfind a ha
    omega
  · exact ⟨doc, rfl⟩

theorem countDate_append (l1 l2 : List Document) (k : String) :
    countDate (l1 ++ l2) k = countDate l1 k + countDate l2 k := by
  unfold countDate
  rw [List.filter_append, List.length_append]

theorem currentPath_store_or_ok (api : Nat → ApiResponse) (tzOf : String → Int)
    (now : PyDateTime) (w : World) :
    (currentPath api tzOf now w).2.store = w.store ∨
    ∃ d, (currentPath api tzOf now w).1 = Except.ok d := by
  rcases hf : currentFindFresh w.store
      (now.addMicroseconds (-(ttlMicroseconds currentMaxRequestsPerDay))) with _ | r
  · rcases hd : darksky (api w.fetchCount) with e | body
    · left; simp [currentPath, hf, hd]
    · rcases ha : annotateCurrent tzOf body with e | stored
      · left; simp [currentPath, hf, hd, ha]
      · right; exact ⟨stored, by simp [currentPath, hf, hd, ha]⟩
  · left; simp [currentPath, hf]

theorem forecastPath_store_or_ok (api : Nat → ApiResponse)
    (now dt : PyDateTime) (w : World) :
    (forecastPath api now dt w).2.store = w.store ∨
    ∃ d, (forecastPath api now dt w).1 = Except.ok d := by
  rcases hf : w.store.forecasts.find?
      (fun r => dateFieldEq (strftimeDMY dt.dateIdx) r &&
        timeFieldAfter (now.addMicroseconds (-(ttlMicroseconds forecastMaxRequestsPerDay))) r) with _ | r
  · rcases hd : darksky (api w.fetchCount) with e | body
    · left; simp [forecastPath, hf, hd]
    · right
      refine ⟨stampDoc now (strftimeDMY dt.dateIdx) body, ?_⟩
      simp [forecastPath, hf, hd]
  · left; simp [forecastPath, hf]

theorem historicalPath_store_or_ok (api : Nat → ApiResponse)
    (now dt : PyDateTime) (w : World) :
    (historicalPath api now dt w).2.store = w.store ∨
    ∃ d, (historicalPath api now dt w).1 = Except.ok d := by
  rcases hf : w.store.time_machine.find?
      (fun r => dateFieldEq (strftimeDMY dt.dateIdx) r) with _ | r
  · rcases hd : darksky (api w.fetchCount) with e | body
    · left; simp [historicalPath, hf, hd]
    · right
      refine ⟨stampDoc now (strftimeDMY dt.dateIdx) body, ?_⟩
      simp [historicalPath, hf, hd]
  · left; simp [historicalPath, hf]

theorem getData_store_or_ok (api : Nat → ApiResponse) (tzOf : String → Int)
    (loc : Int) (now : PyDateTime) (w : World) (t : PyInput) :
    (getData api tzOf loc now w t).2.store = w.store ∨
    ∃ d, (getData api tzOf loc now w t).1 = Except.ok d := by
  cases t with
  | noneArg => exact currentPath_store_or_ok api tzOf now w
  | naive wall => left; rfl
  | otherType => left; rfl
  | aware dt =>
    by_cases h : now.dateIdx ≤ dt.dateIdx
    · rw [getData_aware_forecast api tzOf loc now dt w h]
      exact forecastPath_store_or_ok api now dt w
    · rw [getData_aware_historical api tzOf loc now dt w (not_le.mp h)]
      exact historicalPath_store_or_ok api now dt w
  | dateObj d =>
    rw [getData_dateObj]
    by_cases h : now.dateIdx ≤ d
    · rw [if_pos h]; exact forecastPath_store_or_ok api now _ w
    · rw [if_neg h]; exact historicalPath_store_or_ok api now _ w

theorem darksky_non200 (r : ApiResponse) (h : r.status ≠ 200) :
    darksky r = .error (.runtimeError r.status) := by
  unfold darksky
  rw [if_pos h]

theorem darksky_200 (r : ApiResponse) (h : r.status = 200) :
    darksky r = .ok r.body := by
  unfold darksky
  rw [if_neg (by simp [h])]

theorem currentPath_fetched_non200 (api : Nat → ApiResponse) (tzOf : String → Int)
    (now : PyDateTime) (w : World) (h200 : (api w.fetchCount).status ≠ 200)
    (hN : (currentPath api tzOf now w).2.fetchCount = w.fetchCount + 1) :
    (currentPath api tzOf now w).1 = .error (.runtimeError (api w.fetchCount).status) := by
  have hd := darksky_non200 (api w.fetchCount) h200
  rcases hf : currentFindFresh w.store
      (now.addMicroseconds (-(ttlMicroseconds currentMaxRequestsPerDay))) with _ | r
  · simp [currentPath, hf, hd]
  · exfalso
    have : (currentPath api tzOf now w).2.fetchCount = w.fetchCount := by
      simp [currentPath, hf]
    omega

theorem forecastPath_fetched_non200 (api : Nat → ApiResponse)
    (now dt : PyDateTime) (w : World) (h200 : (api w.fetchCount).status ≠ 200)
    (hN : (forecastPath api now dt w).2.fetchCount = w.fetchCount + 1) :
    (forecastPath api now dt w).1 = .error (.runtimeError (api w.fetchCount).status) := by
  have hd := darksky_non200 (api w.fetchCount) h200
  rcases hf : w.store.forecasts.find?
      (fun r => dateFieldEq (strftimeDMY dt.dateIdx) r &&
        timeFieldAfter (now.addMicroseconds (-(ttlMicroseconds forecastMaxRequestsPerDay))) r) with _ | r
  · simp [forecastPath, hf, hd]
  · exfalso
    have : (forecastPath api now dt w).2.fetchCount = w.fetchCount := by
      simp [forecastPath, hf]
    omega

theorem historicalPath_fetched_non200 (api : Nat → ApiResponse)
    (now dt : PyDateTime) (w : World) (h200 : (api w.fetchCount).status ≠ 200)
    (hN : (historicalPath api now dt w).2.fetchCount = w.fetchCount + 1) :
    (historicalPath api now dt w).1 = .error (.runtimeError (api w.fetchCount).status) := by
  have hd := darksky_non200 (api w.fetchCount) h200
  rcases hf : w.store.time_machine.find?
      (fun r => dateFieldEq (strftimeDMY dt.dateIdx) r) with _ | r
  · simp [historicalPath, hf, hd]
  · exfalso
    have : (historicalPath api now dt w).2.fetchCount = w.fetchCount := by
      simp [historicalPath, hf]
    omega

theorem historicalPath_hit (api : Nat → ApiResponse) (now dt : PyDateTime)
    (w : World) (doc : Document)
    (hhit : w.store.time_machine.find?
      (fun r => dateFieldEq (strftimeDMY dt.dateIdx) r) = some doc) :
    historicalPath api now dt w = (.ok doc, w) := by
  simp [historicalPath, hhit]

theorem historicalPath_miss (api : Nat → ApiResponse) (now dt : PyDateTime)
    (w : World)
    (hmiss : w.store.time_machine.find?
      (fun r => dateFieldEq (strftimeDMY dt.dateIdx) r) = none)
    (hok : (api w.fetchCount).status = 200) :
    (historicalPath api now dt w).1 =
      .ok (stampDoc now (strftimeDMY dt.dateIdx) (api w.fetchCount).body) ∧
    (historicalPath api now dt w).2.fetchCount = w.fetchCount + 1 ∧
    (historicalPath api now dt w).2.store.time_machine =
      w.store.time_machine ++ [stampDoc now (strftimeDMY dt.dateIdx) (api w.fetchCount).body] ∧
    (historicalPath api now dt w).2.store.forecasts = w.store.forecasts ∧
    (historicalPath api now dt w).2.store.current = w.store.current := by
  have hd := darksky_200 (api w.fetchCount) hok
  refine ⟨?_, ?_, ?_, ?_, ?_⟩ <;> simp [historicalPath, hmiss, hd]

/-! ## Claim theorems -/

/-- C1 (amended): the data-retrieval routine classifies a query by the
instant's own wall-clock calendar day, not by its day converted to the local
zone: an absent instant is CURRENT; an instant whose own calendar day is at
least today's is FORECAST and is acted on by the forecast branch; an instant
whose own calendar day is strictly before today's is HISTORICAL and is acted
on by the time-machine branch. -/
theorem claimC1_regime_by_own_wall_date (now t : PyDateTime) :
    classify now none = .CURRENT ∧
    (now.dateIdx ≤ t.dateIdx → classify now (some t) = .FORECAST) ∧
    (t.dateIdx < now.dateIdx → classify now (some t) = .HISTORICAL) ∧
    (∀ api tzOf loc w, now.dateIdx ≤ t.dateIdx →
      getData api tzOf loc now w (.aware t) = forecastPath api now t w) ∧
    (∀ api tzOf loc w, t.dateIdx < now.dateIdx →
      getData api tzOf loc now w (.aware t) = historicalPath api now t w) ∧
    (∀ api tzOf loc w, getData api tzOf loc now w .noneArg = currentPath api tzOf now w) := by
  refine ⟨rfl, ?_, ?_, ?_, ?_, ?_⟩
  · intro h; simp [classify, ge_iff_le, h]
  · intro h; simp [classify, ge_iff_le, not_le.mpr h]
  · intro api tzOf loc w h; exact getData_aware_forecast api tzOf loc now t w h
  · intro api tzOf loc w h; exact getData_aware_historical api tzOf loc now t w h
  · intro api tzOf loc w; exact getData_noneArg api tzOf loc now w

/-- Witness for C1: with now = 2024-03-10T08:00-05:00, the instant
2024-03-10T23:00-05:00 is classified FORECAST and 2024-03-09T23:59-05:00 is
classified HISTORICAL. -/
theorem claimC1_regime_by_own_wall_date_witness :
    (nowMar10.dateIdx ≤ instMar10at23.dateIdx ∧
      classify nowMar10 (some instMar10at23) = .FORECAST) ∧
    (instMar9at2359.dateIdx < nowMar10.dateIdx ∧
      classify nowMar10 (some instMar9at2359) = .HISTORICAL) :=
  ⟨⟨by decide, (claimC1_regime_by_own_wall_date nowMar10 instMar10at23).2.1 (by decide)⟩,
   ⟨by decide, (claimC1_regime_by_own_wall_date nowMar10 instMar9at2359).2.2.1 (by decide)⟩⟩

/-- Counterexample for C1 as stated: the instant 2024-03-10T13:00+09:00 falls
on 2024-03-09 in the local zone (UTC-05:00), strictly before today
(2024-03-10), yet the routine classifies it FORECAST, because the comparison
uses the instant's own wall-clock date, never converting to the local zone. -/
theorem claimC1_counterexample :
    localDateIdx estOffset instTokyoMar10 < nowMar10.dateIdx ∧
    classify nowMar10 (some instTokyoMar10) = .FORECAST := by
  constructor
  · decide
  · decide

/-- C9: calling Weather.hourly with a plain calendar date object always fails
with AttributeError before any classification or fetch (the world is returned
unchanged), because hourly unconditionally calls .date() on its argument,
while __get_data itself accepts plain dates (normalizing them to local
midnight). -/
theorem claimC9_hourly_rejects_plain_date (api : Nat → ApiResponse)
    (tzOf : String → Int) (loc : Int) (now : PyDateTime) (w : World) (d : Int) :
    hourly api tzOf loc now w (.dateObj d) = (.error (.attributeError "date"), w) ∧
    normalizeTime loc (.dateObj d) = .ok (some (date_to_datetime loc d)) :=
  ⟨rfl, rfl⟩

/-- C10: calling Weather.hourly with an absent day argument substitutes
today's local calendar date, which the data-retrieval routine classifies
FORECAST (never CURRENT) and serves through the forecast branch, whose budget
is 100 requests per day, hence a TTL of 864 seconds. -/
theorem claimC10_hourly_default_is_forecast (api : Nat → ApiResponse)
    (tzOf : String → Int) (loc : Int) (now : PyDateTime) (w : World) :
    hourly api tzOf loc now w .noneArg = hourlyCore api tzOf loc now w now.dateIdx ∧
    classify now (some (date_to_datetime loc now.dateIdx)) = .FORECAST ∧
    classify now (some (date_to_datetime loc now.dateIdx)) ≠ .CURRENT ∧
    getData api tzOf loc now w (.dateObj now.dateIdx) =
      forecastPath api now (date_to_datetime loc now.dateIdx) w ∧
    forecastMaxRequestsPerDay = 100 ∧
    ttlSecondsQ forecastMaxRequestsPerDay = 864 := by
  refine ⟨rfl, ?_, ?_, ?_, rfl, ?_⟩
  · simp [classify, ge_iff_le, dateIdx_date_to_datetime]
  · simp [classify, ge_iff_le, dateIdx_date_to_datetime]
  · rw [getData_dateObj, if_pos le_rfl]
  · norm_num [ttlSecondsQ, ttlMicroseconds, forecastMaxRequestsPerDay, usPerSecond]

/-- C5: a non-200 HTTP status from the external API makes the fetch fail with
an error carrying that status code, every failing retrieval leaves every store
partition unchanged, and in particular a retrieval that did perform a fetch
answered with a non-200 status fails with that status (and, by the second
part, writes nothing). -/
theorem claimC5_non200_fails_and_no_write :
    (∀ (s : Nat) (body : Document), s ≠ 200 →
      darksky ⟨s, body⟩ = .error (.runtimeError s)) ∧
    (∀ (api : Nat → ApiResponse) (tzOf : String → Int) (loc : Int)
      (now : PyDateTime) (w : World) (t : PyInput) (e : PyError),
      (getData api tzOf loc now w t).1 = .error e →
      (getData api tzOf loc now w t).2.store = w.store) ∧
    (∀ (api : Nat → ApiResponse) (tzOf : String → Int) (loc : Int)
      (now : PyDateTime) (w : World) (t : PyInput),
      (api w.fetchCount).status ≠ 200 →
      (getData api tzOf loc now w t).2.fetchCount = w.fetchCount + 1 →
      (getData api tzOf loc now w t).1 =
        .error (.runtimeError (api w.fetchCount).status)) := by
  refine ⟨?_, ?_, ?_⟩
  · intro s body h
    exact darksky_non200 ⟨s, body⟩ h
  · intro api tzOf loc now w t e herr
    rcases getData_store_or_ok api tzOf loc now w t with h | ⟨d, hok⟩
    · exact h
    · rw [hok] at herr; exact absurd herr (by simp)
  · intro api tzOf loc now w t h200 hN
    cases t with
    | noneArg => exact currentPath_fetched_non200 api tzOf now w h200 hN
    | naive wall => simp [getData, normalizeTime] at hN
    | otherType => simp [getData, normalizeTime] at hN
    | aware dt =>
      by_cases h : now.dateIdx ≤ dt.dateIdx
      · rw [getData_aware_forecast api tzOf loc now dt w h] at hN ⊢
        exact forecastPath_fetched_non200 api now dt w h200 hN
      · rw [getData_aware_historical api tzOf loc now dt w (not_le.mp h)] at hN ⊢
        exact historicalPath_fetched_non200 api now dt w h200 hN
    | dateObj d =>
      rw [getData_dateObj] at hN ⊢
      by_cases h : now.dateIdx ≤ d
      · rw [if_pos h] at hN ⊢
        exact forecastPath_fetched_non200 api now _ w h200 hN
      · rw [if_neg h] at hN ⊢
        exact historicalPath_fetched_non200 api now _ w h200 hN

/-- Witness for C5: a simulated 429 response makes the fetch fail with a
RuntimeError carrying 429, the whole current-conditions retrieval fails with
that error, and the store is left unchanged. -/
theorem claimC5_non200_fails_and_no_write_witness :
    ((429 : Nat) ≠ 200 ∧ darksky ⟨429, []⟩ = .error (.runtimeError 429)) ∧
    (getData api429 utcTzOf 0 nowMar10 emptyWorld .noneArg).1 =
      .error (.runtimeError 429) ∧
    (getData api429 utcTzOf 0 nowMar10 emptyWorld .noneArg).2.store =
      emptyWorld.store := by
  refine ⟨⟨by decide, claimC5_non200_fails_and_no_write.1 429 [] (by decide)⟩, ?_, ?_⟩
  · exact claimC5_non200_fails_and_no_write.2.2 api429 utcTzOf 0 nowMar10
      emptyWorld .noneArg (by decide) (by decide)
  · exact claimC5_non200_fails_and_no_write.2.1 api429 utcTzOf 0 nowMar10
      emptyWorld .noneArg (.runtimeError 429)
      (claimC5_non200_fails_and_no_write.2.2 api429 utcTzOf 0 nowMar10
        emptyWorld .noneArg (by decide) (by decide))

/-- C2: requesting the same past day twice, starting with no stored record for
that day, performs exactly one external fetch and leaves exactly one stored
time-machine record for that day; the second request is answered entirely from
the store (same document, world untouched); and any retrieval for a past day
that already has a stored record leaves the world untouched, so a historical
record is never duplicated or overwritten. -/
theorem claimC2_historical_one_fetch_one_record (api : Nat → ApiResponse)
    (tzOf : String → Int) (loc : Int) (now1 now2 : PyDateTime) (w : World)
    (d : Int) (hpast1 : d < now1.dateIdx) (hpast2 : d < now2.dateIdx)
    (habsent : countDate w.store.time_machine (strftimeDMY d) = 0)
    (hok : (api w.fetchCount).status = 200) :
    (getData api tzOf loc now1 w (.dateObj d)).2.fetchCount = w.fetchCount + 1 ∧
    countDate (getData api tzOf loc now1 w (.dateObj d)).2.store.time_machine
      (strftimeDMY d) = 1 ∧
    (∃ doc,
      (getData api tzOf loc now1 w (.dateObj d)).1 = .ok doc ∧
      (getData api tzOf loc now2 (getData api tzOf loc now1 w (.dateObj d)).2
        (.dateObj d)).1 = .ok doc ∧
      (getData api tzOf loc now2 (getData api tzOf loc now1 w (.dateObj d)).2
        (.dateObj d)).2 = (getData api tzOf loc now1 w (.dateObj d)).2) ∧
    (∀ (w' : World) (now' : PyDateTime), d < now'.dateIdx →
      0 < countDate w'.store.time_machine (strftimeDMY d) →
      (getData api tzOf loc now' w' (.dateObj d)).2 = w') := by
  have hdidx : (date_to_datetime loc d).dateIdx = d := dateIdx_date_to_datetime loc d
  have hg1 : getData api tzOf loc now1 w (.dateObj d) =
      historicalPath api now1 (date_to_datetime loc d) w := by
    rw [getData_dateObj, if_neg (by omega)]
  have hmiss : w.store.time_machine.find?
      (fun r => dateFieldEq (strftimeDMY (date_to_datetime loc d).dateIdx) r) = none := by
    rw [hdidx]
    exact find?_eq_none_of_countDate_zero _ _ habsent
  obtain ⟨hr1, hc1, htm1, _, _⟩ :=
    historicalPath_miss api now1 (date_to_datetime loc d) w hmiss hok
  rw [hdidx] at hr1 htm1
  set stored := stampDoc now1 (strftimeDMY d) (api w.fetchCount).body with hstored
  have hcount1 : countDate (getData api tzOf loc now1 w (.dateObj d)).2.store.time_machine
      (strftimeDMY d) = 1 := by
    rw [hg1, htm1, countDate_append, habsent]
    simp [countDate, List.filter, hstored, dateFieldEq_stampDoc]
  have hfind2 : (getData api tzOf loc now1 w (.dateObj d)).2.store.time_machine.find?
      (fun r => dateFieldEq (strftimeDMY (date_to_datetime loc d).dateIdx) r) = some stored := by
    rw [hdidx, hg1, htm1, find?_append_of_none _ _ _
      (find?_eq_none_of_countDate_zero _ _ habsent)]
    exact List.find?_cons_of_pos _ (dateFieldEq_stampDoc now1 (strftimeDMY d) _)
  have hg2 : getData api tzOf loc now2 (getData api tzOf loc now1 w (.dateObj d)).2
      (.dateObj d) = (.ok stored, (getData api tzOf loc now1 w (.dateObj d)).2) := by
    rw [getData_dateObj, if_neg (by omega)]
    exact historicalPath_hit api now2 (date_to_datetime loc d) _ stored hfind2
  refine ⟨by rw [hg1]; exact hc1, hcount1, ⟨stored, by rw [hg1]; exact hr1,
    by rw [hg2], by rw [hg2]⟩, ?_⟩
  · intro w' now' hpast hpos
    obtain ⟨doc, hfind⟩ := find?_some_of_countDate_pos _ _ hpos
    rw [getData_dateObj, if_neg (by omega)]
    rw [historicalPath_hit api now' (date_to_datetime loc d) w' doc (by rw [hdidx]; exact hfind)]

/-- Witness for C2: with an empty store, now = 2024-03-10T08:00-05:00 and the
past day 2024-03-09, the double request performs one fetch, stores one record,
serves the second request from the store, and retrievals against an existing
record leave the world untouched. -/
theorem claimC2_historical_one_fetch_one_record_witness :
    (getData apiAtNowMar10 utcTzOf estOffset nowMar10 emptyWorld (.dateObj 19791)).2.fetchCount =
      emptyWorld.fetchCount + 1 ∧
    countDate (getData apiAtNowMar10 utcTzOf estOffset nowMar10 emptyWorld
      (.dateObj 19791)).2.store.time_machine (strftimeDMY 19791) = 1 ∧
    (∃ doc,
      (getData apiAtNowMar10 utcTzOf estOffset nowMar10 emptyWorld (.dateObj 19791)).1 = .ok doc ∧
      (getData apiAtNowMar10 utcTzOf estOffset nowMar10
        (getData apiAtNowMar10 utcTzOf estOffset nowMar10 emptyWorld (.dateObj 19791)).2
        (.dateObj 19791)).1 = .ok doc ∧
      (getData apiAtNowMar10 utcTzOf estOffset nowMar10
        (getData apiAtNowMar10 utcTzOf estOffset nowMar10 emptyWorld (.dateObj 19791)).2
        (.dateObj 19791)).2 =
        (getData apiAtNowMar10 utcTzOf estOffset nowMar10 emptyWorld (.dateObj 19791)).2) ∧
    (∀ (w' : World) (now' : PyDateTime), (19791 : Int) < now'.dateIdx →
      0 < countDate w'.store.time_machine (strftimeDMY 19791) →
      (getData apiAtNowMar10 utcTzOf estOffset now' w' (.dateObj 19791)).2 = w') :=
  claimC2_historical_one_fetch_one_record apiAtNowMar10 utcTzOf estOffset
    nowMar10 nowMar10 emptyWorld 19791 (by decide) (by decide) (by decide) (by decide)

theorem absInstant_fromtimestamp (ts off : Int) :
    (fromtimestamp ts off).absInstant = ts := by
  simp [fromtimestamp, PyDateTime.absInstant]

theorem absInstant_addMicroseconds (t : PyDateTime) (d : Int) :
    (t.addMicroseconds d).absInstant = t.absInstant + d := by
  simp [PyDateTime.addMicroseconds, PyDateTime.absInstant]
  omega

theorem annotateCurrent_ok (tzOf : String → Int) (body c : Document)
    (ts : Int) (z : String)
    (hcur : getField body "currently" = some (.obj c))
    (hts : getField c "time" = some (.num ts))
    (hz : getField body "timezone" = some (.str z)) :
    annotateCurrent tzOf body =
      .ok (setField body "time" (.dt (fromtimestamp (ts * usPerSecond) (tzOf z)))) := by
  simp [annotateCurrent, hcur, hts, hz]

theorem timeFieldAfter_of_time_dt (r : Document) (t th : PyDateTime)
    (h : getField r "time" = some (.dt t)) :
    timeFieldAfter th r = decide (th.absInstant < t.absInstant) := by
  simp [timeFieldAfter, h]

theorem currentPath_hit (api : Nat → ApiResponse) (tzOf : String → Int)
    (now : PyDateTime) (w : World) (r : Document)
    (hhit : currentFindFresh w.store
      (now.addMicroseconds (-(ttlMicroseconds currentMaxRequestsPerDay))) = some r) :
    currentPath api tzOf now w = (.ok r, w) := by
  simp [currentPath, hhit]

theorem currentPath_miss_fetchCount (api : Nat → ApiResponse) (tzOf : String → Int)
    (now : PyDateTime) (w : World)
    (hmiss : currentFindFresh w.store
      (now.addMicroseconds (-(ttlMicroseconds currentMaxRequestsPerDay))) = none) :
    (currentPath api tzOf now w).2.fetchCount = w.fetchCount + 1 := by
  rcases hd : darksky (api w.fetchCount) with e | body
  · simp [currentPath, hmiss, hd]
  · rcases ha : annotateCurrent tzOf body with e | stored
    · simp [currentPath, hmiss, hd, ha]
    · simp [currentPath, hmiss, hd, ha]

theorem currentPath_miss_ok (api : Nat → ApiResponse) (tzOf : String → Int)
    (now : PyDateTime) (w : World) (stored : Document)
    (hmiss : currentFindFresh w.store
      (now.addMicroseconds (-(ttlMicroseconds currentMaxRequestsPerDay))) = none)
    (hok : (api w.fetchCount).status = 200)
    (hann : annotateCurrent tzOf (api w.fetchCount).body = .ok stored) :
    (currentPath api tzOf now w).1 = .ok stored ∧
    (currentPath api tzOf now w).2.fetchCount = w.fetchCount + 1 ∧
    (currentPath api tzOf now w).2.store.current =
      some (match w.store.current with
            | some old => mergeSet old stored
            | none => stored) ∧
    (currentPath api tzOf now w).2.store.forecasts = w.store.forecasts ∧
    (currentPath api tzOf now w).2.store.time_machine = w.store.time_machine := by
  have hd := darksky_200 (api w.fetchCount) hok
  refine ⟨?_, ?_, ?_, ?_, ?_⟩ <;> simp [currentPath, hmiss, hd, hann]

/-- C3: the current-conditions TTL derived from max_requests_per_day = 250 is
345.6 seconds; starting from an empty current slot, a request fetches once; a
second request 100 seconds later is answered from the store with the same
document and no new fetch; a request 400 seconds after the first performs
exactly one new external fetch. -/
theorem claimC3_current_ttl_cache (api : Nat → ApiResponse) (tzOf : String → Int)
    (loc : Int) (now : PyDateTime) (w : World) (c1 : Document) (ts : Int) (z : String)
    (hempty : w.store.current = none)
    (hok : (api w.fetchCount).status = 200)
    (hcur : getField (api w.fetchCount).body "currently" = some (.obj c1))
    (hts : getField c1 "time" = some (.num ts))
    (hz : getField (api w.fetchCount).body "timezone" = some (.str z))
    (htsnow : ts * usPerSecond = now.absInstant) :
    ttlSecondsQ currentMaxRequestsPerDay = 345.6 ∧
    (getData api tzOf loc now w .noneArg).2.fetchCount = w.fetchCount + 1 ∧
    (∃ doc, (getData api tzOf loc now w .noneArg).1 = .ok doc ∧
      getData api tzOf loc (now.addMicroseconds (100 * usPerSecond))
        (getData api tzOf loc now w .noneArg).2 .noneArg =
        (.ok doc, (getData api tzOf loc now w .noneArg).2)) ∧
    (getData api tzOf loc (now.addMicroseconds (400 * usPerSecond))
      (getData api tzOf loc now w .noneArg).2 .noneArg).2.fetchCount =
      (getData api tzOf loc now w .noneArg).2.fetchCount + 1 := by
  have httl : ttlMicroseconds currentMaxRequestsPerDay = 345600000 := by decide
  have husec : usPerSecond = 1000000 := rfl
  have hmiss1 : currentFindFresh w.store
      (now.addMicroseconds (-(ttlMicroseconds currentMaxRequestsPerDay))) = none := by
    simp [currentFindFresh, hempty]
  have hann := annotateCurrent_ok tzOf (api w.fetchCount).body c1 ts z hcur hts hz
  set stored := setField (api w.fetchCount).body "time"
    (.dt (fromtimestamp (ts * usPerSecond) (tzOf z))) with hstored
  obtain ⟨hr1, hc1, hcur1, _, _⟩ := currentPath_miss_ok api tzOf now w stored hmiss1 hok hann
  rw [hempty] at hcur1
  have hstoredTime : getField stored "time" =
      some (.dt (fromtimestamp (ts * usPerSecond) (tzOf z))) := by
    rw [hstored]; exact getField_setField_self _ _ _
  have habs : (fromtimestamp (ts * usPerSecond) (tzOf z)).absInstant = now.absInstant := by
    rw [absInstant_fromtimestamp, htsnow]
  have hg1 : getData api tzOf loc now w .noneArg = currentPath api tzOf now w := rfl
  refine ⟨?_, ?_, ?_, ?_⟩
  · norm_num [ttlSecondsQ, ttlMicroseconds, currentMaxRequestsPerDay, usPerSecond]
  · rw [hg1]; exact hc1
  · refine ⟨stored, by rw [hg1]; exact hr1, ?_⟩
    have hfresh : timeFieldAfter
        ((now.addMicroseconds (100 * usPerSecond)).addMicroseconds
          (-(ttlMicroseconds currentMaxRequestsPerDay))) stored = true := by
      rw [timeFieldAfter_of_time_dt _ _ _ hstoredTime]
      rw [decide_eq_true_eq, absInstant_addMicroseconds, absInstant_addMicroseconds,
        habs, httl, husec]
      omega
    have hhit : currentFindFresh (getData api tzOf loc now w .noneArg).2.store
        ((now.addMicroseconds (100 * usPerSecond)).addMicroseconds
          (-(ttlMicroseconds currentMaxRequestsPerDay))) = some stored := by
      rw [hg1]
      simp [currentFindFresh, hcur1, hfresh]
    exact currentPath_hit api tzOf _ _ stored hhit
  · have hstale : timeFieldAfter
        ((now.addMicroseconds (400 * usPerSecond)).addMicroseconds
          (-(ttlMicroseconds currentMaxRequestsPerDay))) stored = false := by
      rw [timeFieldAfter_of_time_dt _ _ _ hstoredTime]
      rw [decide_eq_false_iff_not, absInstant_addMicroseconds, absInstant_addMicroseconds,
        habs, httl, husec]
      omega
    have hmiss3 : currentFindFresh (getData api tzOf loc now w .noneArg).2.store
        ((now.addMicroseconds (400 * usPerSecond)).addMicroseconds
          (-(ttlMicroseconds currentMaxRequestsPerDay))) = none := by
      rw [hg1]
      simp [currentFindFresh, hcur1, hstale]
    exact currentPath_miss_fetchCount api tzOf _ _ hmiss3

/-- Witness for C3: the concrete scenario at now = 2024-03-10T08:00-05:00 with
an empty store and an API reporting that same instant. -/
theorem claimC3_current_ttl_cache_witness :
    ttlSecondsQ currentMaxRequestsPerDay = 345.6 ∧
    (getData apiAtNowMar10 utcTzOf estOffset nowMar10 emptyWorld .noneArg).2.fetchCount =
      emptyWorld.fetchCount + 1 ∧
    (∃ doc,
      (getData apiAtNowMar10 utcTzOf estOffset nowMar10 emptyWorld .noneArg).1 = .ok doc ∧
      getData apiAtNowMar10 utcTzOf estOffset (nowMar10.addMicroseconds (100 * usPerSecond))
        (getData apiAtNowMar10 utcTzOf estOffset nowMar10 emptyWorld .noneArg).2 .noneArg =
        (.ok doc, (getData apiAtNowMar10 utcTzOf estOffset nowMar10 emptyWorld .noneArg).2)) ∧
    (getData apiAtNowMar10 utcTzOf estOffset (nowMar10.addMicroseconds (400 * usPerSecond))
      (getData apiAtNowMar10 utcTzOf estOffset nowMar10 emptyWorld .noneArg).2 .noneArg).2.fetchCount =
      (getData apiAtNowMar10 utcTzOf estOffset nowMar10 emptyWorld .noneArg).2.fetchCount + 1 :=
  claimC3_current_ttl_cache apiAtNowMar10 utcTzOf estOffset nowMar10 emptyWorld
    [("time", .num 1710075600)] 1710075600 "UTC"
    rfl (by decide) rfl rfl rfl (by decide)

theorem forecastPath_miss (api : Nat → ApiResponse) (now dt : PyDateTime)
    (w : World)
    (hmiss : w.store.forecasts.find?
      (fun r => dateFieldEq (strftimeDMY dt.dateIdx) r &&
        timeFieldAfter (now.addMicroseconds (-(ttlMicroseconds forecastMaxRequestsPerDay))) r) = none)
    (hok : (api w.fetchCount).status = 200) :
    (forecastPath api now dt w).1 =
      .ok (stampDoc now (strftimeDMY dt.dateIdx) (api w.fetchCount).body) ∧
    (forecastPath api now dt w).2.fetchCount = w.fetchCount + 1 ∧
    (forecastPath api now dt w).2.store.forecasts =
      upsertByDate (strftimeDMY dt.dateIdx)
        (stampDoc now (strftimeDMY dt.dateIdx) (api w.fetchCount).body)
        w.store.forecasts ∧
    (forecastPath api now dt w).2.store.time_machine = w.store.time_machine ∧
    (forecastPath api now dt w).2.store.current = w.store.current := by
  have hd := darksky_200 (api w.fetchCount) hok
  refine ⟨?_, ?_, ?_, ?_, ?_⟩ <;> simp [forecastPath, hmiss, hd]

theorem currentPath_keyed_partitions_unchanged (api : Nat → ApiResponse)
    (tzOf : String → Int) (now : PyDateTime) (w : World) :
    (currentPath api tzOf now w).2.store.forecasts = w.store.forecasts ∧
    (currentPath api tzOf now w).2.store.time_machine = w.store.time_machine := by
  rcases hf : currentFindFresh w.store
      (now.addMicroseconds (-(ttlMicroseconds currentMaxRequestsPerDay))) with _ | r
  · rcases hd : darksky (api w.fetchCount) with e | body
    · constructor <;> simp [currentPath, hf, hd]
    · rcases ha : annotateCurrent tzOf body with e | stored
      · constructor <;> simp [currentPath, hf, hd, ha]
      · constructor <;> simp [currentPath, hf, hd, ha]
  · constructor <;> simp [currentPath, hf]

/-- C7 (amended): writes to the CURRENT slot and FORECAST partition are Mongo
update_one with a $set operator, which merges the new document into any
existing one field by field: every field of the new document is written
(overwriting the old value), but a field present only in the previously stored
document survives into the merged record; only HISTORICAL inserts the fetched
record whole.  So a stored record is updated field-by-field, not replaced. -/
theorem claimC7_set_merges_field_by_field :
    (∀ (new_ old : Document) (k : String) (v : Value),
      (new_.map Prod.fst).Nodup → getField new_ k = some v →
      getField (mergeSet old new_) k = some v) ∧
    (∀ (new_ old : Document) (k : String), k ∉ new_.map Prod.fst →
      getField (mergeSet old new_) k = getField old k) ∧
    (∀ (api : Nat → ApiResponse) (tzOf : String → Int) (now : PyDateTime)
      (w : World) (old stored : Document),
      w.store.current = some old →
      currentFindFresh w.store
        (now.addMicroseconds (-(ttlMicroseconds currentMaxRequestsPerDay))) = none →
      (api w.fetchCount).status = 200 →
      annotateCurrent tzOf (api w.fetchCount).body = .ok stored →
      (currentPath api tzOf now w).2.store.current = some (mergeSet old stored)) ∧
    (∀ (key : String) (stored old : Document) (rest : List Document),
      dateFieldEq key old = true →
      upsertByDate key stored (old :: rest) = mergeSet old stored :: rest) ∧
    (∀ (api : Nat → ApiResponse) (now dt : PyDateTime) (w : World),
      w.store.time_machine.find?
        (fun r => dateFieldEq (strftimeDMY dt.dateIdx) r) = none →
      (api w.fetchCount).status = 200 →
      (historicalPath api now dt w).2.store.time_machine =
        w.store.time_machine ++
          [stampDoc now (strftimeDMY dt.dateIdx) (api w.fetchCount).body]) := by
  refine ⟨?_, ?_, ?_, ?_, ?_⟩
  · intro new_ old k v hnd h
    exact getField_mergeSet_of_mem new_ old k v hnd h
  · intro new_ old k h
    exact getField_mergeSet_of_not_mem new_ old k h
  · intro api tzOf now w old stored hcur hmiss hok hann
    obtain ⟨_, _, hc, _, _⟩ := currentPath_miss_ok api tzOf now w stored hmiss hok hann
    rw [hc, hcur]
  · intro key stored old rest h
    simp [upsertByDate, h]
  · intro api now dt w hmiss hok
    exact (historicalPath_miss api now dt w hmiss hok).2.2.1

/-- Witness for C7 (amended): the concrete stale current record carrying an
alerts field is merged with, not replaced by, the fresh response. -/
theorem claimC7_set_merges_field_by_field_witness :
    staleCurrentWorld.store.current = some staleCurrentDoc ∧
    (currentPath apiAtNowMar10 utcTzOf nowMar10 staleCurrentWorld).2.store.current =
      some (mergeSet staleCurrentDoc
        (setField bodyAtNowMar10 "time"
          (.dt (fromtimestamp (1710075600 * usPerSecond) (utcTzOf "UTC"))))) :=
  ⟨rfl,
   claimC7_set_merges_field_by_field.2.2.1 apiAtNowMar10 utcTzOf nowMar10
     staleCurrentWorld staleCurrentDoc
     (setField bodyAtNowMar10 "time"
       (.dt (fromtimestamp (1710075600 * usPerSecond) (utcTzOf "UTC"))))
     rfl rfl rfl rfl⟩

/-- Counterexample for C7 as stated: after the CURRENT overwrite, the stored
record still carries the field alerts from the previously stored record, which
the freshly fetched response does not carry at all — a field of the previous
record survives into the new one. -/
theorem claimC7_counterexample :
    getField bodyAtNowMar10 "alerts" = none ∧
    Option.map (fun doc => getField doc "alerts")
      (getData apiAtNowMar10 utcTzOf estOffset nowMar10 staleCurrentWorld
        .noneArg).2.store.current = some (some (.str "storm")) :=
  ⟨rfl, rfl⟩

/-- C8 (amended): every FORECAST and HISTORICAL record is stored under and
looked up by the requested day rendered by strftime %d-%m-%Y, that is
DD-MM-YYYY — not the ISO-8601 date YYYY-MM-DD; the CURRENT slot is a single
unkeyed record, and the current branch never touches the keyed partitions. -/
theorem claimC8_date_keys_dmy_not_iso :
    (∀ (now : PyDateTime) (key : String) (body : Document),
      getField (stampDoc now key body) "date" = some (.str key)) ∧
    (∀ (api : Nat → ApiResponse) (now dt : PyDateTime) (w : World),
      w.store.time_machine.find?
        (fun r => dateFieldEq (strftimeDMY dt.dateIdx) r) = none →
      (api w.fetchCount).status = 200 →
      (historicalPath api now dt w).2.store.time_machine =
        w.store.time_machine ++
          [stampDoc now (strftimeDMY dt.dateIdx) (api w.fetchCount).body]) ∧
    (∀ (api : Nat → ApiResponse) (now dt : PyDateTime) (w : World),
      w.store.forecasts.find?
        (fun r => dateFieldEq (strftimeDMY dt.dateIdx) r &&
          timeFieldAfter (now.addMicroseconds
            (-(ttlMicroseconds forecastMaxRequestsPerDay))) r) = none →
      (api w.fetchCount).status = 200 →
      (forecastPath api now dt w).2.store.forecasts =
        upsertByDate (strftimeDMY dt.dateIdx)
          (stampDoc now (strftimeDMY dt.dateIdx) (api w.fetchCount).body)
          w.store.forecasts) ∧
    (∀ (api : Nat → ApiResponse) (tzOf : String → Int) (now : PyDateTime) (w : World),
      (currentPath api tzOf now w).2.store.forecasts = w.store.forecasts ∧
      (currentPath api tzOf now w).2.store.time_machine = w.store.time_machine) ∧
    strftimeDMY 19792 = "10-03-2024" ∧
    isoDateString 19792 = "2024-03-10" := by
  refine ⟨?_, ?_, ?_, ?_, by decide, by decide⟩
  · intro now key body
    exact getField_setField_self _ _ _
  · intro api now dt w hmiss hok
    exact (historicalPath_miss api now dt w hmiss hok).2.2.1
  · intro api now dt w hmiss hok
    exact (forecastPath_miss api now dt w hmiss hok).2.2.1
  · intro api tzOf now w
    exact currentPath_keyed_partitions_unchanged api tzOf now w

/-- Witness for C8 (amended): the concrete historical retrieval of 2024-03-10
(with now on 2024-03-11) stores its record under the DD-MM-YYYY key. -/
theorem claimC8_date_keys_dmy_not_iso_witness :
    getField (stampDoc nowMar11 "10-03-2024" bodyAtNowMar10) "date" =
      some (.str "10-03-2024") ∧
    (historicalPath apiAtNowMar10 nowMar11 (date_to_datetime estOffset 19792)
      emptyWorld).2.store.time_machine =
      emptyWorld.store.time_machine ++
        [stampDoc nowMar11 (strftimeDMY (date_to_datetime estOffset 19792).dateIdx)
          (apiAtNowMar10 emptyWorld.fetchCount).body] ∧
    strftimeDMY 19792 = "10-03-2024" :=
  ⟨claimC8_date_keys_dmy_not_iso.1 nowMar11 "10-03-2024" bodyAtNowMar10,
   claimC8_date_keys_dmy_not_iso.2.1 apiAtNowMar10 nowMar11
     (date_to_datetime estOffset 19792) emptyWorld rfl rfl,
   claimC8_date_keys_dmy_not_iso.2.2.2.2.1⟩

/-- Counterexample for C8 as stated: the key under which the historical record
for 2024-03-10 is stored is the string 10-03-2024, which is not the ISO
calendar date 2024-03-10. -/
theorem claimC8_counterexample :
    Option.map (fun doc => getField doc "date")
      (getData apiAtNowMar10 utcTzOf estOffset nowMar11 emptyWorld
        (.dateObj 19792)).2.store.time_machine.head? =
      some (some (.str "10-03-2024")) ∧
    isoDateString 19792 = "2024-03-10" ∧
    "10-03-2024" ≠ "2024-03-10" :=
  ⟨rfl, by decide, by decide⟩

theorem mem_insertSorted (a b : String) (l : List String) :
    b ∈ insertSorted a l ↔ b = a ∨ b ∈ l := by
  induction l with
  | nil => simp [insertSorted]
  | cons c rest ih =>
    by_cases h : strLeB a c
    · simp [insertSorted, h, List.mem_cons]
    · simp only [insertSorted, h, Bool.false_eq_true, if_false, List.mem_cons, ih]
      tauto

theorem mem_sortStrings (a : String) (l : List String) :
    a ∈ sortStrings l ↔ a ∈ l := by
  induction l with
  | nil => simp [sortStrings]
  | cons c rest ih =>
    simp [sortStrings, mem_insertSorted, ih]

theorem mem_keyUnion (k : String) (hours : List Document) :
    k ∈ keyUnion hours ↔ ∃ h ∈ hours, k ∈ h.map Prod.fst := by
  unfold keyUnion
  rw [mem_sortStrings, List.mem_dedup, List.mem_flatten]
  constructor
  · rintro ⟨l, hl, hk⟩
    obtain ⟨h, hh, rfl⟩ := List.mem_map.mp hl
    exact ⟨h, hh, hk⟩
  · rintro ⟨h, hh, hk⟩
    exact ⟨h.map Prod.fst, List.mem_map.mpr ⟨h, hh, rfl⟩, hk⟩

theorem mem_keys_of_getField_some {A : Type} (r : List (String × A)) (k : String)
    (v : A) (h : getField r k = some v) : k ∈ r.map Prod.fst := by
  induction r with
  | nil => simp [getField] at h
  | cons p rest ih =>
    obtain ⟨k0, v0⟩ := p
    by_cases h0 : k0 = k
    · subst h0; simp
    · simp only [getField, if_neg h0] at h
      simp [ih h]

theorem getField_map_keys {A : Type} (keys : List String) (f : String → A) (k : String) :
    getField (keys.map (fun k0 => (k0, f k0))) k =
      if k ∈ keys then some (f k) else none := by
  induction keys with
  | nil => simp [getField]
  | cons a rest ih =>
    by_cases h : a = k
    · subst h; simp [getField]
    · simp [getField, h, ih, List.mem_cons, Ne.symm h]

theorem map_fst_setField {A : Type} (r : List (String × A)) (k : String) (v : A)
    (h : k ∈ r.map Prod.fst) : (setField r k v).map Prod.fst = r.map Prod.fst := by
  induction r with
  | nil => simp at h
  | cons p rest ih =>
    obtain ⟨k0, v0⟩ := p
    by_cases h0 : k0 = k
    · subst h0; simp [setField]
    · simp only [List.map_cons, List.mem_cons] at h
      rcases h with h | h

      · exact absurd h.symm h0
      · simp [setField, h0, ih h]

theorem mem_setField {A : Type} (r : List (String × A)) (k : String) (v : A)
    (p : String × A) (h : p ∈ setField r k v) : p = (k, v) ∨ p ∈ r := by
  induction r with
  | nil => simp [setField] at h; simp [h]
  | cons q rest ih =>
    obtain ⟨k0, v0⟩ := q
    by_cases h0 : k0 = k
    · simp only [setField, if_pos h0, List.mem_cons] at h
      rcases h with h | h
      · exact Or.inl h
      · exact Or.inr (List.mem_cons_of_mem _ h)
    · simp only [setField, if_neg h0, List.mem_cons] at h
      rcases h with h | h
      · exact Or.inr (by simp [h])
      · rcases ih h with h1 | h1
        · exact Or.inl h1
        · exact Or.inr (List.mem_cons_of_mem _ h1)

theorem map_fst_map_pair {A : Type} (keys : List String) (f : String → A) :
    (keys.map (fun k => (k, f k))).map Prod.fst = keys := by
  induction keys with
  | nil => rfl
  | cons a rest ih => simp only [List.map_cons, ih]

theorem map_fst_buildColumns (hours : List Document) :
    (buildColumns hours).map Prod.fst = keyUnion hours :=
  map_fst_map_pair (keyUnion hours) (fun k => hours.map (fun h => getField h k))

theorem convertTimes_ok_of_all_num (tzoff : Int) (col : List (Option Value))
    (h : ∀ x ∈ col, ∃ ts, x = some (.num ts)) :
    ∃ newCol, convertTimes tzoff col = .ok newCol ∧ newCol.length = col.length := by
  induction col with
  | nil => exact ⟨[], rfl, rfl⟩
  | cons x rest ih =>
    obtain ⟨ts, hx⟩ := h x (by simp)
    obtain ⟨nc, hnc, hlen⟩ := ih (fun y hy => h y (by simp [hy]))
    subst hx
    refine ⟨some (.dt (fromtimestamp (ts * usPerSecond) tzoff)) :: nc, ?_, by simp [hlen]⟩
    simp [convertTimes, hnc]

/-- C6 (amended): for every nonempty array of per-hour records in which every
record carries a numeric time field, the hourly aggregation produces one
column per field name in the union of keys across all records, each column
having exactly one entry per hour, with an explicit null (None) exactly where
an hour lacks that field; no hour and no field is dropped.  (When some record
lacks the time field, or the array is empty, the aggregation instead fails at
the time-conversion step.) -/
theorem claimC6_aggregation_completeness (tzoff : Int) (hours : List Document)
    (hne : hours ≠ [])
    (htime : ∀ h ∈ hours, isNumField h "time" = true) :
    ∃ tbl, aggregateHours tzoff hours = .ok tbl ∧
      tbl.map Prod.fst = keyUnion hours ∧
      (∀ p ∈ tbl, p.2.length = hours.length) ∧
      (∀ k, k ∈ keyUnion hours → k ≠ "time" →
        getField tbl k = some (hours.map (fun h => getField h k))) := by
  have htime' : ∀ h ∈ hours, ∃ ts, getField h "time" = some (.num ts) := by
    intro h hh
    have := htime h hh
    unfold isNumField at this
    rcases hget : getField h "time" with _ | v
    · rw [hget] at this; simp at this
    · rcases v with q | s | t | f | e
      · exact ⟨q, rfl⟩
      all_goals (rw [hget] at this; simp at this)
  have htimeMem : "time" ∈ keyUnion hours := by
    rcases hours with _ | ⟨h0, rest⟩
    · exact absurd rfl hne
    · obtain ⟨ts, hts⟩ := htime' h0 (by simp)
      exact (mem_keyUnion _ _).mpr ⟨h0, by simp, mem_keys_of_getField_some _ _ _ hts⟩
  have hcolsTime : getField (buildColumns hours) "time" =
      some (hours.map (fun h => getField h "time")) := by
    unfold buildColumns
    rw [getField_map_keys, if_pos htimeMem]
  have hallnum : ∀ x ∈ hours.map (fun h => getField h "time"), ∃ ts, x = some (.num ts) := by
    intro x hx
    obtain ⟨h, hh, rfl⟩ := List.mem_map.mp hx
    exact htime' h hh
  obtain ⟨newCol, hconv, hlen⟩ :=
    convertTimes_ok_of_all_num tzoff (hours.map (fun h => getField h "time")) hallnum
  have hagg : aggregateHours tzoff hours =
      .ok (setField (buildColumns hours) "time" newCol) := by
    simp [aggregateHours, hcolsTime, hconv]
  refine ⟨setField (buildColumns hours) "time" newCol, hagg, ?_, ?_, ?_⟩
  · rw [map_fst_setField _ _ _ (by rw [map_fst_buildColumns]; exact htimeMem),
      map_fst_buildColumns]
  · intro p hp
    rcases mem_setField _ _ _ _ hp with h | h
    · rw [h]
      simpa using hlen.trans (by simp)
    · unfold buildColumns at h
      obtain ⟨k, hk, rfl⟩ := List.mem_map.mp h
      simp
  · intro k hk hkt
    rw [getField_setField_ne _ _ _ _ hkt]
    unfold buildColumns
    rw [getField_map_keys, if_pos hk]

/-- The expected aggregation of the claim's two-record example: humidity has
length 2 with a null first entry; time and temperature are fully populated. -/
def aggExample : Table :=
  [("humidity", [none, some (.num 83)]),
   ("temperature", [some (.num 66), some (.num 67)]),
   ("time", [some (.dt ⟨1000000000, 0⟩), some (.dt ⟨4600000000, 0⟩)])]

/-- Witness for C6 (amended): the two-record example of the claim, with the
concrete resulting table. -/
theorem claimC6_aggregation_completeness_witness :
    ([hourRec1, hourRec2] : List Document) ≠ [] ∧
    (∀ h ∈ ([hourRec1, hourRec2] : List Document), isNumField h "time" = true) ∧
    (∃ tbl, aggregateHours 0 [hourRec1, hourRec2] = .ok tbl ∧
      tbl.map Prod.fst = keyUnion [hourRec1, hourRec2] ∧
      (∀ p ∈ tbl, p.2.length = ([hourRec1, hourRec2] : List Document).length) ∧
      (∀ k, k ∈ keyUnion [hourRec1, hourRec2] → k ≠ "time" →
        getField tbl k = some (([hourRec1, hourRec2] : List Document).map
          (fun h => getField h k)))) ∧
    aggregateHours 0 [hourRec1, hourRec2] = .ok aggExample :=
  ⟨by simp, by decide,
   claimC6_aggregation_completeness 0 [hourRec1, hourRec2] (by simp) (by decide),
   rfl⟩

/-- Counterexample for C6 as stated: for an array whose record lacks the time
field (and likewise for the empty array), the aggregation does not produce any
table at all — it fails with KeyError at the unconditional time-column
conversion — so the universal claim over every array of per-hour records is
false. -/
theorem claimC6_counterexample :
    aggregateHours 0 [[("temperature", .num 1)]] = .error (.keyError "time") ∧
    aggregateHours 0 [] = .error (.keyError "time") :=
  ⟨rfl, rfl⟩

/-- C4 (code evaluated at the failing input): __get_data itself rejects every
naive datetime with ValueError, but Weather.hourly first calls day.date(),
which silently converts a naive datetime into its wall-clock calendar date and
proceeds through the normal date path (local midnight is assumed); on the
concrete naive input 2024-03-09T23:59 the hourly call succeeds with a table
instead of failing with a validation error. -/
theorem claimC4_naive_rejected_except_hourly :
    (∀ (api : Nat → ApiResponse) (tzOf : String → Int) (loc : Int)
      (now : PyDateTime) (w : World) (wall : Int),
      getData api tzOf loc now w (.naive wall) =
        (.error (.valueError "Day is a naive datetime object. Please assign a timezone before passing in."), w)) ∧
    (∀ (api : Nat → ApiResponse) (tzOf : String → Int) (loc : Int)
      (now : PyDateTime) (w : World) (wall : Int),
      hourly api tzOf loc now w (.naive wall) =
        hourlyCore api tzOf loc now w (wall / usPerDay)) ∧
    (∃ tbl, (hourly apiHourly utcTzOf estOffset nowMar10 emptyWorld
      (.naive naiveMar9Wall)).1 = .ok tbl) :=
  ⟨fun _ _ _ _ _ _ => rfl, fun _ _ _ _ _ _ => rfl, ⟨_, rfl⟩⟩

end GrillBotWeather
